import Mathlib

/-!
Verification of the Blender-Copilot modifier-assistant pipeline: a shallow
embedding of the command parser (`src/copilot/utils/command_parser.py`), the
context validator (`src/copilot/utils/context_validator.py`), the workflow
executors (`src/copilot/utils/modifier_workflows.py`), the feedback catalog
(`src/copilot/utils/modifier_feedback.py`) and the dispatching operator
(`src/copilot/operators/modifier_assistant.py`), together with theorems about
classification priority, validation order and messages, executor effects, and
dispatcher totality.

Modelling conventions:
- Python strings are `List Char`; `str.lower` is `Char.toLower` per character
  (faithful on the ASCII texts involved) and `str.strip` drops the ASCII
  whitespace characters Python strips.
- Blender objects are records with an identity (`id`), a `type` string
  modelled as the closed kind enum, a modifier stack, location, scale and
  per-polygon smooth flags; the scene holds the object list, the context mode
  string, the selected-object id list and the active-object id.
- Operator statuses are the strings "FINISHED" / "CANCELLED", mirroring the
  Python set literals so that the two-status contract is a statement, not a
  typing artifact.
- Python exceptions raised by host primitives (modifier creation, bpy.ops
  calls) are modelled by an error oracle `Nat → Option String`: each failable
  primitive call site in an executor has a fixed index, and the oracle says
  whether that call raises and with what message.  The try/except blocks of
  the source become matches on the oracle.
-/

namespace BlenderCopilot

/-! ## Workflow types (command_parser.WorkflowType) -/

inductive WorkflowType where
  | SMART_ARRAY
  | HARD_SURFACE
  | SYMMETRIZE
  | CURVE_DEFORM
  | SOLIDIFY
  | SHRINKWRAP
  | UNKNOWN
deriving DecidableEq, Repr, Fintype

/-! ## Python string primitives -/

/-- The whitespace characters removed by Python `str.strip()` (ASCII part). -/
def isPySpace (c : Char) : Bool :=
  c = ' ' || c = '\t' || c = '\n' || c = '\r' || c = '\x0b' || c = '\x0c'

/-- Python `str.strip()`: drop whitespace from both ends. -/
def pyStrip (l : List Char) : List Char :=
  ((l.dropWhile isPySpace).reverse.dropWhile isPySpace).reverse

/-- Python `str.lower()` (ASCII-faithful). -/
def pyLower (l : List Char) : List Char := l.map Char.toLower

/-- `command_text.lower().strip()` from `parse_command`. -/
def normalizeCmd (l : List Char) : List Char := pyStrip (pyLower l)

/-! ## COMMAND_PATTERNS (command_parser.py lines 21-60), in declaration order -/

/-- The declared pattern list of each workflow (the values of the
`COMMAND_PATTERNS` dict; empty for UNKNOWN, which has no entry). -/
def patternsOf : WorkflowType → List (List Char)
  | .SMART_ARRAY =>
      ["array".toList, "duplicate".toList, "copies".toList, "make 5".toList,
       "create array".toList]
  | .HARD_SURFACE =>
      ["hard-surface".toList, "hard surface".toList, "subdivision".toList,
       "subd".toList, "bevel".toList]
  | .SYMMETRIZE =>
      ["mirror".toList, "symmetrize".toList, "symmetric".toList, "sym".toList]
  | .CURVE_DEFORM =>
      ["curve deform".toList, "deform".toList, "follow".toList, "path".toList,
       "bend".toList]
  | .SOLIDIFY =>
      ["solidify".toList, "thickness".toList, "thicken".toList, "solid".toList]
  | .SHRINKWRAP =>
      ["shrinkwrap".toList, "wrap".toList, "conform".toList]
  | .UNKNOWN => []

/-- The ordered dict `COMMAND_PATTERNS`, iterated in insertion order. -/
def COMMAND_PATTERNS : List (WorkflowType × List (List Char)) :=
  [ (.SMART_ARRAY, patternsOf .SMART_ARRAY),
    (.HARD_SURFACE, patternsOf .HARD_SURFACE),
    (.SYMMETRIZE, patternsOf .SYMMETRIZE),
    (.CURVE_DEFORM, patternsOf .CURVE_DEFORM),
    (.SOLIDIFY, patternsOf .SOLIDIFY),
    (.SHRINKWRAP, patternsOf .SHRINKWRAP) ]

/-- Is the first list a prefix of the second? -/
def listPrefix : List Char → List Char → Bool
  | [], _ => true
  | _ :: _, [] => false
  | a :: as, b :: bs => a == b && listPrefix as bs

/-- Python substring containment `p in n`: `p` occurs contiguously in `n`. -/
def listInfix (p : List Char) : List Char → Bool
  | [] => listPrefix p []
  | c :: rest => listPrefix p (c :: rest) || listInfix p rest

/-- `pattern.lower() in normalized` for one pattern. -/
def patternHits (n : List Char) (p : List Char) : Bool :=
  listInfix (pyLower p) n

/-- The scan over the pattern table: first workflow with a hitting pattern. -/
def findMatch : List (WorkflowType × List (List Char)) → List Char → Option WorkflowType
  | [], _ => none
  | (w, ps) :: rest, n => if ps.any (patternHits n) then some w else findMatch rest n

/-- `parse_command` (command_parser.py lines 63-99). -/
def parse_command (t : List Char) : WorkflowType :=
  let normalized := normalizeCmd t
  if normalized.length < 3 then .UNKNOWN
  else
    match findMatch COMMAND_PATTERNS normalized with
    | some w => w
    | none => .UNKNOWN

/-- Does some declared pattern of `w` occur in the normalized text? -/
def intentMatches (w : WorkflowType) (n : List Char) : Bool :=
  (patternsOf w).any (patternHits n)

/-- Position of each workflow in the declaration order of the table. -/
def declIdx : WorkflowType → Nat
  | .SMART_ARRAY => 0
  | .HARD_SURFACE => 1
  | .SYMMETRIZE => 2
  | .CURVE_DEFORM => 3
  | .SOLIDIFY => 4
  | .SHRINKWRAP => 5
  | .UNKNOWN => 6

/-! ## Scene data model

Blender objects and the scene graph, restricted to the parts the modifier
assistant reads or writes: object type, modifier stack, location, scale and
per-polygon smooth flags, plus the context's mode / selection / active object.
Vertex-level geometry is not part of the model. -/

inductive ObjKind where
  | MESH
  | EMPTY
  | CURVE
  | OTHER
deriving DecidableEq, Repr

structure Vec3 where
  x : ℚ
  y : ℚ
  z : ℚ
deriving DecidableEq, Repr

/-- One entry of an object's modifier stack, with exactly the properties the
workflows set.  Objects referenced by a modifier are stored by id. -/
inductive Modifier where
  | array (count : Nat) (useRelativeOffset : Bool) (relativeOffsetDisplace : Vec3)
      (useObjectOffset : Bool) (offsetObject : Option Nat)
  | bevel (limitMethod : String) (segments : Nat)
  | subsurf (levels : Nat)
  | mirror (useAxis : Bool × Bool × Bool) (useBisectAxis : Bool × Bool × Bool) (useClip : Bool)
  | curveDef (object : Option Nat)
  | solidify (thickness : ℚ) (useEvenOffset : Bool)
  | shrinkwrap (target : Option Nat) (wrapMethod : String)
deriving DecidableEq, Repr

structure Obj where
  id : Nat
  name : String
  kind : ObjKind
  modifiers : List Modifier
  location : Vec3
  scale : Vec3
  polysSmooth : List Bool
deriving DecidableEq, Repr

structure Scene where
  objects : List Obj
  mode : String
  selected : List Nat
  active : Option Nat
deriving DecidableEq, Repr

def getObj (s : Scene) (i : Nat) : Option Obj :=
  s.objects.find? (fun o => o.id == i)

/-- `context.selected_objects`. -/
def selectedObjs (s : Scene) : List Obj :=
  s.selected.filterMap (getObj s)

/-- `context.active_object`. -/
def activeObj (s : Scene) : Option Obj :=
  s.active.bind (getObj s)

def updateObj (s : Scene) (i : Nat) (f : Obj → Obj) : Scene :=
  { s with objects := s.objects.map (fun o => if o.id == i then f o else o) }

/-- `obj.modifiers.new(...)`: appends one entry at the end of the stack. -/
def addModifier (s : Scene) (i : Nat) (m : Modifier) : Scene :=
  updateObj s i (fun o => { o with modifiers := o.modifiers ++ [m] })

/-- `for poly in mesh.polygons: poly.use_smooth = True`. -/
def smoothAllPolys (s : Scene) (i : Nat) : Scene :=
  updateObj s i (fun o => { o with polysSmooth := o.polysSmooth.map (fun _ => true) })

def setLocation (s : Scene) (i : Nat) (loc : Vec3) : Scene :=
  updateObj s i (fun o => { o with location := loc })

/-- `bpy.ops.object.transform_apply(location=False, rotation=False, scale=True)`:
bakes the scale of the selected objects, resetting it to (1,1,1) (the baked
vertex coordinates are outside the model). -/
def applyScaleSelected (s : Scene) : Scene :=
  { s with objects :=
      s.objects.map (fun o =>
        if s.selected.contains o.id then { o with scale := ⟨1, 1, 1⟩ } else o) }

/-! ## Config (preferences.py defaults, spec's immutable Config) -/

structure Config where
  arrayCount : Nat
  arrayOffsetX : ℚ
  bevelSegments : Nat
  subdivisionLevels : Nat
  solidifyThickness : ℚ
deriving DecidableEq, Repr

/-- The hardcoded defaults used when preferences are unavailable, equal to the
declared property defaults of `CopilotAddonPreferences`. -/
def defaultConfig : Config :=
  { arrayCount := 5, arrayOffsetX := 1, bevelSegments := 3,
    subdivisionLevels := 2, solidifyThickness := Rat.divInt 1 100 }

/-! ## Python number formatting

The floats this program carries (array offset 1.0, solidify thickness 0.01)
are exact, short decimals, so they are modelled as rationals.  `pyFloatStr q`
models `str(float)` for nonnegative floats whose shortest representation is
the finite decimal `q` (e.g. `str(1.0) = "1.0"`, `str(0.01) = "0.01"`);
`pyFormat4 q` models `f"{q:.4f}"` away from rounding ties.  Both compute with
the numerator/denominator directly. -/

def fracDigitsND : Nat → Nat → Nat → List Char
  | 0, _, _ => []
  | fuel + 1, r, d =>
    if r = 0 then []
    else Nat.digitChar (r * 10 / d) :: fracDigitsND fuel (r * 10 % d) d

def pyFloatStr (q : ℚ) : String :=
  let n := q.num.toNat
  let d := q.den
  let frac := fracDigitsND 20 (n % d) d
  toString (n / d) ++ "." ++ (if frac.isEmpty then "0" else String.mk frac)

def pad4 (n : Nat) : String :=
  let s := toString n
  String.mk (List.replicate (4 - s.length) '0') ++ s

def pyFormat4 (q : ℚ) : String :=
  let n := q.num.toNat
  let d := q.den
  let t := (2 * n * 10000 + d) / (2 * d)
  toString (t / 10000) ++ "." ++ pad4 (t % 10000)

/-! ## Context validator (context_validator.py)

Each `_validate_*` reads `context.selected_objects`, `context.active_object`
(two-mesh case only) and `context.mode`; those reads are the parameters here.
The leading list match mirrors `if not selected`. -/

/-- `_count_object_types(objects).get(k)`, with absence read as count 0
(Python's `None == n` is `False` for every count `n`, like `0 == n` here
since a key is present exactly when its count is positive). -/
def countKind (l : List Obj) (k : ObjKind) : Nat :=
  (l.filter (fun o => o.kind == k)).length

def _validate_smart_array (selected : List Obj) (mode : String) : Bool × String :=
  match selected with
  | [] => (false, "Please select an object first")
  | o :: rest =>
    if mode ≠ "OBJECT" then
      (false, "This command must be run in Object Mode (currently in " ++ mode ++ ")")
    else if (o :: rest).length = 1 ∧ countKind (o :: rest) .MESH = 1 then (true, "")
    else if (o :: rest).length = 2 ∧ countKind (o :: rest) .MESH = 1 ∧
        countKind (o :: rest) .EMPTY = 1 then (true, "")
    else if (o :: rest).length = 1 then
      (false, "This command requires a mesh object to be selected")
    else if (o :: rest).length = 2 then
      (false, "This command requires two selected objects: a mesh and an empty")
    else
      (false, "This command requires 1 or 2 selected object(s), but " ++
        toString (o :: rest).length ++ " are selected")

def _validate_single_mesh (selected : List Obj) (mode : String) : Bool × String :=
  match selected with
  | [] => (false, "Please select an object first")
  | o :: rest =>
    if mode ≠ "OBJECT" then
      (false, "This command must be run in Object Mode (currently in " ++ mode ++ ")")
    else if (o :: rest).length ≠ 1 then
      (false, "This command requires 1 selected object(s), but " ++
        toString (o :: rest).length ++ " are selected")
    else if o.kind ≠ .MESH then
      (false, "This command requires a mesh object to be selected")
    else (true, "")

def _validate_mesh_and_curve (selected : List Obj) (mode : String) : Bool × String :=
  match selected with
  | [] => (false, "Please select an object first")
  | o :: rest =>
    if mode ≠ "OBJECT" then
      (false, "This command must be run in Object Mode (currently in " ++ mode ++ ")")
    else if (o :: rest).length ≠ 2 then
      (false, "This command requires 2 selected object(s), but " ++
        toString (o :: rest).length ++ " are selected")
    else if countKind (o :: rest) .MESH = 1 ∧ countKind (o :: rest) .CURVE = 1 then (true, "")
    else (false, "This command requires two selected objects: a mesh and a curve")

def _validate_two_meshes (selected : List Obj) (active : Option Obj) (mode : String) :
    Bool × String :=
  match selected with
  | [] => (false, "Please select an object first")
  | o :: rest =>
    if mode ≠ "OBJECT" then
      (false, "This command must be run in Object Mode (currently in " ++ mode ++ ")")
    else if (o :: rest).length ≠ 2 then
      (false, "This command requires 2 selected object(s), but " ++
        toString (o :: rest).length ++ " are selected")
    else if countKind (o :: rest) .MESH ≠ 2 then
      (false, "This command requires two mesh objects to be selected")
    else
      match active with
      | none => (false, "Please ensure one of the selected objects is active")
      | some a =>
        if (o :: rest).any (fun x => x.id == a.id) then (true, "")
        else (false, "Please ensure one of the selected objects is active")

/-- `validate_context` (context_validator.py lines 21-56): routes by workflow
type; an unknown type yields the "Unknown workflow type" failure. -/
def validate_context (w : WorkflowType) (selected : List Obj) (active : Option Obj)
    (mode : String) : Bool × String :=
  match w with
  | .SMART_ARRAY => _validate_smart_array selected mode
  | .HARD_SURFACE => _validate_single_mesh selected mode
  | .SYMMETRIZE => _validate_single_mesh selected mode
  | .CURVE_DEFORM => _validate_mesh_and_curve selected mode
  | .SOLIDIFY => _validate_single_mesh selected mode
  | .SHRINKWRAP => _validate_two_meshes selected active mode
  | .UNKNOWN => (false, "Unknown workflow type: UNKNOWN")

/-! ## Workflow executors (modifier_workflows.py)

Statuses are the strings "FINISHED" / "CANCELLED" (the Python set literals
`{'FINISHED'}` / `{'CANCELLED'}`).  Each executor's failable host primitive
calls are numbered from 0 in source order; the error oracle decides whether a
call raises, and with what message — the `try/except` of the source is the
corresponding match.  A `none` object argument models Python `None`, on which
the first attribute access raises inside the `try`. -/

abbrev ErrOracle := Nat → Option String

/-- Detail text of the `AttributeError` raised by `None.modifiers`. -/
def noneTypeDetail : String := "NoneType object has no attribute modifiers"

/-- `apply_smart_array_single` (modifier_workflows.py lines 22-54).
Failable call 0: `obj.modifiers.new`. -/
def apply_smart_array_single (cfg : Config) (oracle : ErrOracle) (obj : Option Obj)
    (s : Scene) : (String × String) × Scene :=
  match obj with
  | none => (("CANCELLED", "Failed to add Array modifier: " ++ noneTypeDetail), s)
  | some o =>
    match oracle 0 with
    | some e => (("CANCELLED", "Failed to add Array modifier: " ++ e), s)
    | none =>
      (("FINISHED", "Array modifier added with " ++ toString cfg.arrayCount ++
          " copies on X-axis (offset " ++ pyFloatStr cfg.arrayOffsetX ++ ")"),
        addModifier s o.id
          (.array cfg.arrayCount true ⟨cfg.arrayOffsetX, 0, 0⟩ false none))

/-- `apply_smart_array_controlled` (lines 57-86).  Fields the code does not
set keep Blender's defaults (count 2, relative displace (1,0,0)).
Failable call 0: `mesh_obj.modifiers.new`. -/
def apply_smart_array_controlled (oracle : ErrOracle) (mesh_obj empty_obj : Obj)
    (s : Scene) : (String × String) × Scene :=
  match oracle 0 with
  | some e => (("CANCELLED", "Failed to add Array modifier: " ++ e), s)
  | none =>
    (("FINISHED", "Array modifier added with empty object control"),
      addModifier s mesh_obj.id (.array 2 false ⟨1, 0, 0⟩ true (some empty_obj.id)))

/-- `apply_hard_surface_setup` (lines 89-128).
Failable calls: 0 bevel `modifiers.new`, 1 subsurf `modifiers.new`; the
smooth-shading loop only sets attributes. -/
def apply_hard_surface_setup (cfg : Config) (oracle : ErrOracle) (obj : Option Obj)
    (s : Scene) : (String × String) × Scene :=
  match obj with
  | none => (("CANCELLED", "Failed to apply hard-surface setup: " ++ noneTypeDetail), s)
  | some o =>
    match oracle 0 with
    | some e => (("CANCELLED", "Failed to apply hard-surface setup: " ++ e), s)
    | none =>
      let s1 := addModifier s o.id (.bevel "ANGLE" cfg.bevelSegments)
      match oracle 1 with
      | some e => (("CANCELLED", "Failed to apply hard-surface setup: " ++ e), s1)
      | none =>
        let s2 := addModifier s1 o.id (.subsurf cfg.subdivisionLevels)
        (("FINISHED", "Hard-surface setup applied (Bevel + Subdivision + Smooth)"),
          smoothAllPolys s2 o.id)

/-- The `except` handler of `apply_symmetrize` (lines 196-203): if the mode is
not OBJECT, best-effort `mode_set(mode='OBJECT')` (failable call 6) whose own
exception is swallowed, then report CANCELLED. -/
def symmetrizeFail (oracle : ErrOracle) (e : String) (s : Scene) :
    (String × String) × Scene :=
  let s' :=
    if s.mode ≠ "OBJECT" then
      match oracle 6 with
      | some _ => s
      | none => { s with mode := "OBJECT" }
    else s
  (("CANCELLED", "Failed to apply symmetrize: " ++ e), s')

/-- `apply_symmetrize` (lines 131-203).  Failable calls in source order:
0 `mode_set(mode='OBJECT')` (only when the original mode is not OBJECT),
1 `transform_apply(scale=True)`, 2 `obj.modifiers.new` (mirror; raises on a
`None` object), 3 `mode_set(mode='EDIT')`, 4 the bmesh vertex deletion block
(vertex geometry is outside the model), 5 `mode_set(mode='OBJECT')`,
6 the restore `mode_set` inside the handler.  Setting the active object is a
plain assignment (both branches of the `!=` guard leave `active = obj`). -/
def apply_symmetrize (oracle : ErrOracle) (obj : Option Obj) (s : Scene) :
    (String × String) × Scene :=
  let original_mode := s.mode
  let s0 : Scene := { s with active := obj.map Obj.id }
  match (if original_mode ≠ "OBJECT" then oracle 0 else none) with
  | some e => symmetrizeFail oracle e s0
  | none =>
    let s1 := if original_mode ≠ "OBJECT" then { s0 with mode := "OBJECT" } else s0
    match oracle 1 with
    | some e => symmetrizeFail oracle e s1
    | none =>
      let s2 := applyScaleSelected s1
      match obj, oracle 2 with
      | none, _ => symmetrizeFail oracle noneTypeDetail s2
      | some _, some e => symmetrizeFail oracle e s2
      | some o, none =>
        let s3 := addModifier s2 o.id
          (.mirror (true, false, false) (true, false, false) true)
        match oracle 3 with
        | some e => symmetrizeFail oracle e s3
        | none =>
          let s4 : Scene := { s3 with mode := "EDIT_MESH" }
          match oracle 4 with
          | some e => symmetrizeFail oracle e s4
          | none =>
            match oracle 5 with
            | some e => symmetrizeFail oracle e s4
            | none =>
              (("FINISHED",
                  "Symmetrize applied on X-axis (scale applied, positive X deleted)"),
                { s4 with mode := "OBJECT" })

/-- `apply_curve_deform` (lines 206-252).  Failable calls: 0/1 the two
`transform_apply(scale=True)` (acting on the selected objects), 2 the curve
`modifiers.new`.  Active-object assignments are plain writes; the original
active object is restored on the success path only. -/
def apply_curve_deform (oracle : ErrOracle) (mesh_obj curve_obj : Obj) (s : Scene) :
    (String × String) × Scene :=
  let original_active := s.active
  let s1 : Scene := { s with active := some mesh_obj.id }
  match oracle 0 with
  | some e => (("CANCELLED", "Failed to apply curve deform: " ++ e), s1)
  | none =>
    let s2 : Scene := { applyScaleSelected s1 with active := some curve_obj.id }
    match oracle 1 with
    | some e => (("CANCELLED", "Failed to apply curve deform: " ++ e), s2)
    | none =>
      let s3 := applyScaleSelected s2
      let s4 := setLocation s3 mesh_obj.id curve_obj.location
      let s5 : Scene := { s4 with active := some mesh_obj.id }
      match oracle 2 with
      | some e => (("CANCELLED", "Failed to apply curve deform: " ++ e), s5)
      | none =>
        let s6 := addModifier s5 mesh_obj.id (.curveDef (some curve_obj.id))
        (("FINISHED", "Curve deform applied (scales applied, origins aligned)"),
          { s6 with active := original_active })

/-- `apply_solidify` (lines 255-281).  Failable call 0: `obj.modifiers.new`. -/
def apply_solidify (cfg : Config) (oracle : ErrOracle) (obj : Option Obj)
    (s : Scene) : (String × String) × Scene :=
  match obj with
  | none => (("CANCELLED", "Failed to add Solidify modifier: " ++ noneTypeDetail), s)
  | some o =>
    match oracle 0 with
    | some e => (("CANCELLED", "Failed to add Solidify modifier: " ++ e), s)
    | none =>
      (("FINISHED", "Solidify modifier added (thickness: " ++
          pyFormat4 cfg.solidifyThickness ++ "m, even offset enabled)"),
        addModifier s o.id (.solidify cfg.solidifyThickness true))

/-- `apply_shrinkwrap` (lines 284-310).  Failable call 0:
`source_obj.modifiers.new`. -/
def apply_shrinkwrap (oracle : ErrOracle) (source_obj target_obj : Obj) (s : Scene) :
    (String × String) × Scene :=
  match oracle 0 with
  | some e => (("CANCELLED", "Failed to add Shrinkwrap modifier: " ++ e), s)
  | none =>
    (("FINISHED", "Shrinkwrap modifier added (target: " ++ target_obj.name ++ ")"),
      addModifier s source_obj.id (.shrinkwrap (some target_obj.id) "NEAREST_SURFACEPOINT"))

/-- `identify_mesh_and_empty` (lines 313-331). -/
def identify_mesh_and_empty (obj1 obj2 : Obj) : Option Obj × Option Obj :=
  if obj1.kind = .MESH ∧ obj2.kind = .EMPTY then (some obj1, some obj2)
  else if obj1.kind = .EMPTY ∧ obj2.kind = .MESH then (some obj2, some obj1)
  else (none, none)

/-- `identify_mesh_and_curve` (lines 334-352). -/
def identify_mesh_and_curve (obj1 obj2 : Obj) : Option Obj × Option Obj :=
  if obj1.kind = .MESH ∧ obj2.kind = .CURVE then (some obj1, some obj2)
  else if obj1.kind = .CURVE ∧ obj2.kind = .MESH then (some obj2, some obj1)
  else (none, none)

/-! ## The dispatching operator (modifier_assistant.py) -/

def ERROR_COMMAND_EMPTY : String := "Please enter a command"

def ERROR_COMMAND_NOT_UNDERSTOOD : String :=
  "Command not understood. Try: \x27make array\x27, \x27hard-surface\x27, \x27mirror\x27, \x27solidify\x27, \x27curve deform\x27, or \x27shrinkwrap\x27"

/-- `COPILOT_OT_modifier_assistant._execute_smart_array` (lines 124-140). -/
def _execute_smart_array (cfg : Config) (oracle : ErrOracle) (selected : List Obj)
    (active : Option Obj) (s : Scene) : (String × String) × Scene :=
  if selected.length = 1 then apply_smart_array_single cfg oracle active s
  else
    match selected with
    | o1 :: o2 :: _ =>
      match identify_mesh_and_empty o1 o2 with
      | (some m, some e) => apply_smart_array_controlled oracle m e s
      | _ => (("CANCELLED", "Could not identify mesh and empty objects"), s)
    | _ =>
      -- selected[0] / selected[1] would raise IndexError in the source; this
      -- branch is unreachable after validation (1 or 2 objects selected).
      (("CANCELLED", "Could not identify mesh and empty objects"), s)

/-- `COPILOT_OT_modifier_assistant._execute_curve_deform` (lines 142-153). -/
def _execute_curve_deform (oracle : ErrOracle) (selected : List Obj) (s : Scene) :
    (String × String) × Scene :=
  match selected with
  | o1 :: o2 :: _ =>
    match identify_mesh_and_curve o1 o2 with
    | (some m, some c) => apply_curve_deform oracle m c s
    | _ => (("CANCELLED", "Could not identify mesh and curve objects"), s)
  | _ =>
    -- unreachable after validation (exactly 2 objects selected)
    (("CANCELLED", "Could not identify mesh and curve objects"), s)

/-- `COPILOT_OT_modifier_assistant._execute_shrinkwrap` (lines 155-159):
the active object is the source; the first selected object that is not the
active one is the target. -/
def _execute_shrinkwrap (oracle : ErrOracle) (selected : List Obj)
    (active : Option Obj) (s : Scene) : (String × String) × Scene :=
  match active with
  | some a =>
    match selected.filter (fun o => o.id != a.id) with
    | t :: _ => apply_shrinkwrap oracle a t s
    | [] =>
      -- `[obj for obj in selected if obj != active][0]` would raise
      -- IndexError; unreachable for a well-formed snapshot after validation
      (("CANCELLED", "Failed to add Shrinkwrap modifier: IndexError"), s)
  | none =>
    -- validation guarantees an active object; unreachable
    (("CANCELLED", "Failed to add Shrinkwrap modifier: " ++ noneTypeDetail), s)

/-- `COPILOT_OT_modifier_assistant._execute_workflow` (lines 85-122): reads
the snapshot's selected objects and active object and routes by workflow. -/
def _execute_workflow (cfg : Config) (oracle : ErrOracle) (w : WorkflowType)
    (s : Scene) : (String × String) × Scene :=
  let selected := selectedObjs s
  let active := activeObj s
  match w with
  | .SMART_ARRAY => _execute_smart_array cfg oracle selected active s
  | .HARD_SURFACE => apply_hard_surface_setup cfg oracle active s
  | .SYMMETRIZE => apply_symmetrize oracle active s
  | .CURVE_DEFORM => _execute_curve_deform oracle selected s
  | .SOLIDIFY => apply_solidify cfg oracle active s
  | .SHRINKWRAP => _execute_shrinkwrap oracle selected active s
  | .UNKNOWN => (("CANCELLED", "Workflow not implemented: UNKNOWN"), s)

/-- `COPILOT_OT_modifier_assistant.execute` (lines 40-83): the dispatcher.
Rejects empty/short text, classifies, validates, then executes; every exit
path returns a (status, message) pair together with the resulting scene. -/
def execute (cfg : Config) (oracle : ErrOracle) (command_text : List Char)
    (s : Scene) : (String × String) × Scene :=
  if (pyStrip command_text).length < 3 then (("CANCELLED", ERROR_COMMAND_EMPTY), s)
  else
    let workflow_type := parse_command command_text
    if workflow_type = .UNKNOWN then (("CANCELLED", ERROR_COMMAND_NOT_UNDERSTOOD), s)
    else
      let v := validate_context workflow_type (selectedObjs s) (activeObj s) s.mode
      if v.1 = false then (("CANCELLED", v.2), s)
      else _execute_workflow cfg oracle workflow_type s

/-! ## Feedback catalog success templates (modifier_feedback.py lines 42-54) -/

def SUCCESS_ARRAY_SINGLE : String := "Array modifier added with 5 copies on X-axis"

def SUCCESS_SOLIDIFY : String :=
  "Solidify modifier added (thickness: 0.01m, even offset enabled)"

/-- `format_message(SUCCESS_SHRINKWRAP, target_name=n)`: the template
`"Shrinkwrap modifier added (target: {target_name})"` with the name
substituted. -/
def SUCCESS_SHRINKWRAP_fmt (target_name : String) : String :=
  "Shrinkwrap modifier added (target: " ++ target_name ++ ")"

/-! ## Sample objects and scenes used by concrete witnesses -/

def sampleMeshA : Obj :=
  { id := 1, name := "Cube", kind := .MESH, modifiers := [],
    location := ⟨0, 0, 0⟩, scale := ⟨2, 2, 2⟩, polysSmooth := [false, false] }

def sampleMeshB : Obj :=
  { id := 2, name := "Target", kind := .MESH, modifiers := [],
    location := ⟨0, 0, 0⟩, scale := ⟨1, 1, 1⟩, polysSmooth := [false] }

def sampleEmpty : Obj :=
  { id := 3, name := "Empty1", kind := .EMPTY, modifiers := [],
    location := ⟨0, 0, 0⟩, scale := ⟨1, 1, 1⟩, polysSmooth := [] }

/-- One mesh selected and active, a second mesh in the scene. -/
def sceneOneMesh : Scene :=
  { objects := [sampleMeshA, sampleMeshB], mode := "OBJECT",
    selected := [1], active := some 1 }

/-- Two meshes selected, the first active. -/
def sceneTwoMeshes : Scene :=
  { objects := [sampleMeshA, sampleMeshB], mode := "OBJECT",
    selected := [1, 2], active := some 1 }

/-- One mesh selected, but a different object active. -/
def sceneActiveMismatch : Scene :=
  { objects := [sampleMeshA, sampleMeshB], mode := "OBJECT",
    selected := [1], active := some 2 }

/-- The all-successes oracle: no host primitive raises. -/
def noFailures : ErrOracle := fun _ => none

/-- An oracle making the mirror `modifiers.new` call of symmetrize raise. -/
def oracleFailMirror : ErrOracle := fun k => if k = 2 then some "boom" else none

/-! ## Parser lemmas -/

theorem findMatch_eq_none_iff (L : List (WorkflowType × List (List Char))) (n : List Char) :
    findMatch L n = none ↔ ∀ e ∈ L, e.2.any (patternHits n) = false := by
  induction L with
  | nil => simp [findMatch]
  | cons e rest ih =>
    obtain ⟨w, ps⟩ := e
    unfold findMatch
    by_cases h : ps.any (patternHits n) = true
    · rw [if_pos h]
      constructor
      · intro hh
        exact absurd hh (by simp)
      · intro hall
        exact absurd (hall (w, ps) (by simp)) (by simp [h])
    · rw [if_neg h, ih]
      constructor
      · intro hall e he
        rcases List.mem_cons.mp he with he | he
        · subst he
          cases hb : ps.any (patternHits n)
          · rfl
          · exact absurd hb h
        · exact hall e he
      · intro hall e he
        exact hall e (List.mem_cons_of_mem _ he)

theorem findMatch_eq_some (L : List (WorkflowType × List (List Char))) (n : List Char)
    (w : WorkflowType) (h : findMatch L n = some w) :
    ∃ ps, (w, ps) ∈ L ∧ ps.any (patternHits n) = true := by
  induction L with
  | nil => simp [findMatch] at h
  | cons e rest ih =>
    obtain ⟨w', ps'⟩ := e
    unfold findMatch at h
    by_cases hc : ps'.any (patternHits n) = true
    · rw [if_pos hc] at h
      obtain rfl : w' = w := by injection h
      exact ⟨ps', by simp, hc⟩
    · rw [if_neg hc] at h
      obtain ⟨ps, hmem, hany⟩ := ih h
      exact ⟨ps, by simp [hmem], hany⟩

/-- C3: for every text whose normalization has length at least 3 and matches
some pattern of intent `w`, if no intent declared earlier in the table
matches, then `parse_command` returns `w` — the earliest-declared matching
intent in the fixed order SMART_ARRAY, HARD_SURFACE, SYMMETRIZE,
CURVE_DEFORM, SOLIDIFY, SHRINKWRAP wins. -/
theorem parse_command_priority (t : List Char) (w : WorkflowType)
    (h3 : ¬ (normalizeCmd t).length < 3)
    (hm : intentMatches w (normalizeCmd t) = true)
    (hearly : ∀ w', declIdx w' < declIdx w → intentMatches w' (normalizeCmd t) = false) :
    parse_command t = w := by
  unfold parse_command
  rw [if_neg h3]
  cases w
  case SMART_ARRAY =>
    simp only [intentMatches] at hm
    simp only [COMMAND_PATTERNS, findMatch]
    rw [if_pos hm]
  case HARD_SURFACE =>
    have e0 := hearly .SMART_ARRAY (by decide)
    simp only [intentMatches] at e0 hm
    simp only [COMMAND_PATTERNS, findMatch]
    rw [if_neg (by simp [e0]), if_pos hm]
  case SYMMETRIZE =>
    have e0 := hearly .SMART_ARRAY (by decide)
    have e1 := hearly .HARD_SURFACE (by decide)
    simp only [intentMatches] at e0 e1 hm
    simp only [COMMAND_PATTERNS, findMatch]
    rw [if_neg (by simp [e0]), if_neg (by simp [e1]), if_pos hm]
  case CURVE_DEFORM =>
    have e0 := hearly .SMART_ARRAY (by decide)
    have e1 := hearly .HARD_SURFACE (by decide)
    have e2 := hearly .SYMMETRIZE (by decide)
    simp only [intentMatches] at e0 e1 e2 hm
    simp only [COMMAND_PATTERNS, findMatch]
    rw [if_neg (by simp [e0]), if_neg (by simp [e1]), if_neg (by simp [e2]), if_pos hm]
  case SOLIDIFY =>
    have e0 := hearly .SMART_ARRAY (by decide)
    have e1 := hearly .HARD_SURFACE (by decide)
    have e2 := hearly .SYMMETRIZE (by decide)
    have e3 := hearly .CURVE_DEFORM (by decide)
    simp only [intentMatches] at e0 e1 e2 e3 hm
    simp only [COMMAND_PATTERNS, findMatch]
    rw [if_neg (by simp [e0]), if_neg (by simp [e1]), if_neg (by simp [e2]),
      if_neg (by simp [e3]), if_pos hm]
  case SHRINKWRAP =>
    have e0 := hearly .SMART_ARRAY (by decide)
    have e1 := hearly .HARD_SURFACE (by decide)
    have e2 := hearly .SYMMETRIZE (by decide)
    have e3 := hearly .CURVE_DEFORM (by decide)
    have e4 := hearly .SOLIDIFY (by decide)
    simp only [intentMatches] at e0 e1 e2 e3 e4 hm
    simp only [COMMAND_PATTERNS, findMatch]
    rw [if_neg (by simp [e0]), if_neg (by simp [e1]), if_neg (by simp [e2]),
      if_neg (by simp [e3]), if_neg (by simp [e4]), if_pos hm]
  case UNKNOWN =>
    simp [intentMatches, patternsOf] at hm

/-- Witness for C3: the spec's two examples, via `parse_command_priority`:
a text containing both "bevel" and "path" classifies HARD_SURFACE, and one
containing both "array" and "mirror" classifies SMART_ARRAY. -/
theorem parse_command_priority_witness :
    parse_command "bevel path".toList = .HARD_SURFACE ∧
    parse_command "array mirror".toList = .SMART_ARRAY :=
  ⟨parse_command_priority _ _ (by decide) (by decide) (by decide),
   parse_command_priority _ _ (by decide) (by decide) (by decide)⟩

/-- C4 counterexample: deleting the final character of the declared
SYMMETRIZE pattern "symmetrize" gives "symmetriz", which still contains the
declared pattern "sym" and therefore classifies as SYMMETRIZE, not UNKNOWN —
so not every single-character variant of a declared pattern is rejected. -/
theorem parse_command_single_deletion_matches :
    "symmetrize".toList ∈ patternsOf .SYMMETRIZE ∧
    ("symmetrize".toList).eraseIdx 9 = "symmetriz".toList ∧
    parse_command "symmetriz".toList = .SYMMETRIZE ∧
    WorkflowType.SYMMETRIZE ≠ .UNKNOWN := by decide

/-- C4 amended: `parse_command` returns UNKNOWN exactly when the normalized
text is shorter than 3 characters or contains no declared pattern of any
intent as a substring.  Hence a single-character variant of a pattern yields
UNKNOWN precisely when no declared pattern survives in it (as in the spec's
examples "aray" and "mirro"), while variants that still contain a declared
pattern (e.g. "symmetriz" ⊇ "sym") classify to that pattern's intent. -/
theorem parse_command_unknown_iff (t : List Char) :
    parse_command t = .UNKNOWN ↔
      ((normalizeCmd t).length < 3 ∨
        ∀ w, intentMatches w (normalizeCmd t) = false) := by
  unfold parse_command
  by_cases h3 : (normalizeCmd t).length < 3
  · simp [h3]
  · rw [if_neg h3]
    constructor
    · intro h
      refine Or.inr ?_
      cases hf : findMatch COMMAND_PATTERNS (normalizeCmd t) with
      | none =>
        intro w
        have hall := (findMatch_eq_none_iff _ _).mp hf
        cases w
        · exact hall (.SMART_ARRAY, patternsOf .SMART_ARRAY) (by decide)
        · exact hall (.HARD_SURFACE, patternsOf .HARD_SURFACE) (by decide)
        · exact hall (.SYMMETRIZE, patternsOf .SYMMETRIZE) (by decide)
        · exact hall (.CURVE_DEFORM, patternsOf .CURVE_DEFORM) (by decide)
        · exact hall (.SOLIDIFY, patternsOf .SOLIDIFY) (by decide)
        · exact hall (.SHRINKWRAP, patternsOf .SHRINKWRAP) (by decide)
        · rfl
      | some w =>
        rw [hf] at h
        simp only at h
        subst h
        obtain ⟨ps, hmem, _⟩ := findMatch_eq_some _ _ _ hf
        have hkey : WorkflowType.UNKNOWN ∈ COMMAND_PATTERNS.map Prod.fst :=
          List.mem_map_of_mem Prod.fst hmem
        simp [COMMAND_PATTERNS] at hkey
    · intro h
      rcases h with h | h
      · exact absurd h h3
      · have hall : ∀ e ∈ COMMAND_PATTERNS, e.2.any (patternHits (normalizeCmd t)) = false := by
          intro e he
          fin_cases he
          · exact h .SMART_ARRAY
          · exact h .HARD_SURFACE
          · exact h .SYMMETRIZE
          · exact h .CURVE_DEFORM
          · exact h .SOLIDIFY
          · exact h .SHRINKWRAP
        rw [(findMatch_eq_none_iff _ _).mpr hall]

/-- Witness for C4's amended theorem: the spec's example variants "aray" and
"mirro" contain no declared pattern and classify as UNKNOWN. -/
theorem parse_command_unknown_iff_witness :
    parse_command "aray".toList = .UNKNOWN ∧
    parse_command "mirro".toList = .UNKNOWN :=
  ⟨(parse_command_unknown_iff _).mpr (Or.inr (by decide)),
   (parse_command_unknown_iff _).mpr (Or.inr (by decide))⟩

/-! ## Role resolver: C9 -/

/-- C9: role resolution is order-independent — swapping the two arguments of
`identify_mesh_and_empty` / `identify_mesh_and_curve` yields the same
(mesh, empty) resp. (mesh, curve) assignment — and each returns (None, None)
exactly when no permissible kind pairing exists. -/
theorem identify_roles_order_independent :
    (∀ a b : Obj, identify_mesh_and_empty a b = identify_mesh_and_empty b a) ∧
    (∀ a b : Obj, identify_mesh_and_curve a b = identify_mesh_and_curve b a) ∧
    (∀ a b : Obj, identify_mesh_and_empty a b = (none, none) ↔
      ¬ ((a.kind = .MESH ∧ b.kind = .EMPTY) ∨ (a.kind = .EMPTY ∧ b.kind = .MESH))) ∧
    (∀ a b : Obj, identify_mesh_and_curve a b = (none, none) ↔
      ¬ ((a.kind = .MESH ∧ b.kind = .CURVE) ∨ (a.kind = .CURVE ∧ b.kind = .MESH))) := by
  refine ⟨fun a b => ?_, fun a b => ?_, fun a b => ?_, fun a b => ?_⟩ <;>
    cases ha : a.kind <;> cases hb : b.kind <;>
      simp [identify_mesh_and_empty, identify_mesh_and_curve, ha, hb]

/-- Witness for C9 at concrete objects: a mesh/empty pair resolves to the
same assignment in both argument orders. -/
theorem identify_roles_order_independent_witness :
    identify_mesh_and_empty sampleMeshA sampleEmpty =
      identify_mesh_and_empty sampleEmpty sampleMeshA :=
  identify_roles_order_independent.1 sampleMeshA sampleEmpty

/-! ## Context validator: C2 -/

/-- C2: for every intent and selection snapshot, validation applies its checks
in the fixed order (1) selection non-empty, (2) mode is OBJECT, (3) count,
(4) kind combination, (5) active object (two-mesh intent only), short-circuits
at the first failing check, and returns exactly the literal message of that
check — e.g. the empty-selection message even when the mode is also wrong, and
"This command requires 1 selected object(s), but 2 are selected" for a
single-mesh intent with two objects selected. -/
theorem validate_context_order_and_messages :
    (∀ w ∈ ([.SMART_ARRAY, .HARD_SURFACE, .SYMMETRIZE, .CURVE_DEFORM, .SOLIDIFY,
        .SHRINKWRAP] : List WorkflowType), ∀ (act : Option Obj) (mode : String),
      validate_context w [] act mode = (false, "Please select an object first")) ∧
    (∀ w ∈ ([.SMART_ARRAY, .HARD_SURFACE, .SYMMETRIZE, .CURVE_DEFORM, .SOLIDIFY,
        .SHRINKWRAP] : List WorkflowType),
      ∀ (sel : List Obj) (act : Option Obj) (mode : String), sel ≠ [] → mode ≠ "OBJECT" →
      validate_context w sel act mode =
        (false, "This command must be run in Object Mode (currently in " ++ mode ++ ")")) ∧
    (∀ w ∈ ([.HARD_SURFACE, .SYMMETRIZE, .SOLIDIFY] : List WorkflowType),
      ∀ (sel : List Obj) (act : Option Obj), sel ≠ [] → sel.length ≠ 1 →
      validate_context w sel act "OBJECT" =
        (false, "This command requires 1 selected object(s), but " ++
          toString sel.length ++ " are selected")) ∧
    (∀ w ∈ ([.CURVE_DEFORM, .SHRINKWRAP] : List WorkflowType),
      ∀ (sel : List Obj) (act : Option Obj), sel ≠ [] → sel.length ≠ 2 →
      validate_context w sel act "OBJECT" =
        (false, "This command requires 2 selected object(s), but " ++
          toString sel.length ++ " are selected")) ∧
    (∀ (sel : List Obj) (act : Option Obj), 3 ≤ sel.length →
      validate_context .SMART_ARRAY sel act "OBJECT" =
        (false, "This command requires 1 or 2 selected object(s), but " ++
          toString sel.length ++ " are selected")) ∧
    (∀ w ∈ ([.HARD_SURFACE, .SYMMETRIZE, .SOLIDIFY] : List WorkflowType),
      ∀ (o : Obj) (act : Option Obj), o.kind ≠ .MESH →
      validate_context w [o] act "OBJECT" =
        (false, "This command requires a mesh object to be selected")) ∧
    (∀ (o : Obj) (act : Option Obj), o.kind ≠ .MESH →
      validate_context .SMART_ARRAY [o] act "OBJECT" =
        (false, "This command requires a mesh object to be selected")) ∧
    (∀ (o1 o2 : Obj) (act : Option Obj),
      ¬ (countKind [o1, o2] .MESH = 1 ∧ countKind [o1, o2] .EMPTY = 1) →
      validate_context .SMART_ARRAY [o1, o2] act "OBJECT" =
        (false, "This command requires two selected objects: a mesh and an empty")) ∧
    (∀ (o1 o2 : Obj) (act : Option Obj),
      ¬ (countKind [o1, o2] .MESH = 1 ∧ countKind [o1, o2] .CURVE = 1) →
      validate_context .CURVE_DEFORM [o1, o2] act "OBJECT" =
        (false, "This command requires two selected objects: a mesh and a curve")) ∧
    (∀ (o1 o2 : Obj) (act : Option Obj), countKind [o1, o2] .MESH ≠ 2 →
      validate_context .SHRINKWRAP [o1, o2] act "OBJECT" =
        (false, "This command requires two mesh objects to be selected")) ∧
    (∀ (o1 o2 : Obj), countKind [o1, o2] .MESH = 2 →
      (validate_context .SHRINKWRAP [o1, o2] none "OBJECT" =
        (false, "Please ensure one of the selected objects is active") ∧
      ∀ (a : Obj), o1.id ≠ a.id → o2.id ≠ a.id →
        validate_context .SHRINKWRAP [o1, o2] (some a) "OBJECT" =
          (false, "Please ensure one of the selected objects is active"))) := by
  refine ⟨?_, ?_, ?_, ?_, ?_, ?_, ?_, ?_, ?_, ?_, ?_⟩
  · intro w hw act mode
    fin_cases hw <;> rfl
  · intro w hw sel act mode hsel hmode
    cases sel with
    | nil => exact absurd rfl hsel
    | cons o rest =>
      fin_cases hw <;>
      · simp only [validate_context, _validate_smart_array, _validate_single_mesh,
          _validate_mesh_and_curve, _validate_two_meshes]
        rw [if_pos hmode]
  · intro w hw sel act hsel hcount
    cases sel with
    | nil => exact absurd rfl hsel
    | cons o rest =>
      fin_cases hw <;>
      · simp only [validate_context, _validate_single_mesh]
        rw [if_neg (by simp), if_pos hcount]
  · intro w hw sel act hsel hcount
    cases sel with
    | nil => exact absurd rfl hsel
    | cons o rest =>
      fin_cases hw <;>
      · simp only [validate_context, _validate_mesh_and_curve, _validate_two_meshes]
        rw [if_neg (by simp), if_pos hcount]
  · intro sel act hlen
    cases sel with
    | nil => simp at hlen
    | cons o rest =>
      have h1 : (o :: rest).length ≠ 1 := by
        intro h
        omega
      have h2 : (o :: rest).length ≠ 2 := by
        intro h
        omega
      simp only [validate_context, _validate_smart_array]
      rw [if_neg (by simp), if_neg (fun h => h1 h.1), if_neg (fun h => h2 h.1),
        if_neg h1, if_neg h2]
  · intro w hw o act hkind
    fin_cases hw <;>
    · simp only [validate_context, _validate_single_mesh]
      rw [if_neg (by simp), if_neg (by simp), if_pos hkind]
  · intro o act hkind
    have hcount0 : countKind [o] ObjKind.MESH = 0 := by
      simp [countKind, List.filter_cons, beq_eq_false_iff_ne, hkind]
    simp only [validate_context, _validate_smart_array]
    rw [if_neg (by simp), if_neg (by simp [hcount0]), if_neg (by simp),
      if_pos (by simp)]
  · intro o1 o2 act hc
    simp only [validate_context, _validate_smart_array]
    rw [if_neg (by simp), if_neg (by simp), if_neg (fun h => hc h.2),
      if_neg (by simp), if_pos (by simp)]
  · intro o1 o2 act hc
    simp only [validate_context, _validate_mesh_and_curve]
    rw [if_neg (by simp), if_neg (by simp), if_neg hc]
  · intro o1 o2 act hc
    simp only [validate_context, _validate_two_meshes]
    rw [if_neg (by simp), if_neg (by simp), if_pos hc]
  · intro o1 o2 hc
    constructor
    · simp only [validate_context, _validate_two_meshes]
      rw [if_neg (by simp), if_neg (by simp), if_neg (by simp [hc])]
    · intro a h1 h2
      have hany : ([o1, o2].any (fun x => x.id == a.id)) = false := by
        simp [h1, h2]
      simp only [validate_context, _validate_two_meshes]
      rw [if_neg (by simp), if_neg (by simp), if_neg (by simp [hc]),
        if_neg (by simp [hany])]

/-- Witness for C2 at concrete snapshots: the empty-selection message wins
over the wrong mode, the wrong-mode message carries the mode verbatim, and a
single-mesh intent with two selected objects yields the exact count message. -/
theorem validate_context_order_and_messages_witness :
    validate_context .HARD_SURFACE [] none "EDIT_MESH" =
      (false, "Please select an object first") ∧
    validate_context .SOLIDIFY [sampleMeshA] none "POSE" =
      (false, "This command must be run in Object Mode (currently in POSE)") ∧
    validate_context .SYMMETRIZE [sampleMeshA, sampleMeshB] none "OBJECT" =
      (false, "This command requires 1 selected object(s), but 2 are selected") :=
  ⟨validate_context_order_and_messages.1 _ (by decide) _ _,
   validate_context_order_and_messages.2.1 _ (by decide) _ _ _ (by decide) (by decide),
   validate_context_order_and_messages.2.2.1 _ (by decide) _ _ (by decide) (by decide)⟩

/-! ## Strip/lower interaction

`execute` guards on `len(command_text.strip())` while `parse_command` guards
on `len(command_text.lower().strip())`; lowering maps whitespace to itself
and non-whitespace to non-whitespace, so the two lengths agree. -/

theorem toNat_charOfNat_valid (n : Nat) (h : n.isValidChar) :
    (Char.ofNat n).toNat = n := by
  rw [Char.ofNat, dif_pos h]
  simp [Char.ofNatAux, Char.toNat, UInt32.toNat, BitVec.toNat_ofNatLt]

theorem isPySpace_eq_false_of_toNat_ge (c : Char) (h : 33 ≤ c.toNat) :
    isPySpace c = false := by
  have hne : ∀ d : Char, d.toNat ≤ 32 → decide (c = d) = false := by
    intro d hd
    apply decide_eq_false
    intro he
    subst he
    omega
  unfold isPySpace
  rw [hne ' ' (by decide), hne '\t' (by decide), hne '\n' (by decide),
    hne '\r' (by decide), hne '\x0b' (by decide), hne '\x0c' (by decide)]
  rfl

theorem isPySpace_toLower (c : Char) : isPySpace c.toLower = isPySpace c := by
  by_cases h : c.toNat ≥ 65 ∧ c.toNat ≤ 90
  · have hl : c.toLower = Char.ofNat (c.toNat + 32) := by
      unfold Char.toLower
      exact if_pos h
    have htn : (Char.ofNat (c.toNat + 32)).toNat = c.toNat + 32 :=
      toNat_charOfNat_valid _ (Or.inl (by omega))
    rw [hl, isPySpace_eq_false_of_toNat_ge _ (by omega),
      isPySpace_eq_false_of_toNat_ge _ (by omega)]
  · have hl : c.toLower = c := by
      unfold Char.toLower
      exact if_neg h
    rw [hl]

theorem dropWhile_isPySpace_map_toLower (l : List Char) :
    (l.map Char.toLower).dropWhile isPySpace = (l.dropWhile isPySpace).map Char.toLower := by
  induction l with
  | nil => rfl
  | cons c cs ih =>
    simp only [List.map_cons, List.dropWhile_cons, isPySpace_toLower]
    by_cases h : isPySpace c = true
    · simp [h, ih]
    · simp only [Bool.not_eq_true] at h
      simp [h]

theorem pyStrip_pyLower (l : List Char) : pyStrip (pyLower l) = pyLower (pyStrip l) := by
  unfold pyStrip pyLower
  rw [dropWhile_isPySpace_map_toLower, ← List.map_reverse,
    dropWhile_isPySpace_map_toLower, ← List.map_reverse]

theorem length_normalizeCmd (t : List Char) :
    (normalizeCmd t).length = (pyStrip t).length := by
  unfold normalizeCmd
  rw [pyStrip_pyLower]
  exact List.length_map _ _

/-- A recognized command's stripped text is never shorter than 3. -/
theorem strip_length_of_parse_ne_unknown {t : List Char}
    (h : parse_command t ≠ .UNKNOWN) : ¬ (pyStrip t).length < 3 := by
  intro hlt
  apply h
  unfold parse_command
  rw [if_pos (by rw [length_normalizeCmd]; exact hlt)]

/-! ## Dispatcher safety: C1 -/

/-- C1: whenever dispatch fails before reaching an executor — command text
too short after stripping, unrecognized command, or any validation failure —
the scene is returned exactly unchanged (no modifier appended, no transform
or location modified, mode untouched) and the status is CANCELLED.
Classification and validation are pure functions of the text and snapshot in
this embedding, mirroring that the source only reads `bpy.context` there. -/
theorem dispatch_prevalidation_failure_preserves_scene (cfg : Config)
    (oracle : ErrOracle) (t : List Char) (s : Scene)
    (h : (pyStrip t).length < 3 ∨ parse_command t = .UNKNOWN ∨
      (validate_context (parse_command t) (selectedObjs s) (activeObj s) s.mode).1 = false) :
    (execute cfg oracle t s).2 = s ∧ (execute cfg oracle t s).1.1 = "CANCELLED" := by
  unfold execute
  by_cases hlen : (pyStrip t).length < 3
  · rw [if_pos hlen]
    exact ⟨rfl, rfl⟩
  · rw [if_neg hlen]
    by_cases hu : parse_command t = .UNKNOWN
    · rw [if_pos hu]
      exact ⟨rfl, rfl⟩
    · have hv : (validate_context (parse_command t) (selectedObjs s) (activeObj s) s.mode).1
          = false := by
        rcases h with h | h | h
        · exact absurd h hlen
        · exact absurd h hu
        · exact h
      rw [if_neg hu, if_pos hv]
      exact ⟨rfl, rfl⟩

/-- Witness for C1: the unrecognized text "xyz" cancels and leaves a concrete
scene untouched. -/
theorem dispatch_prevalidation_failure_preserves_scene_witness :
    (execute defaultConfig noFailures "xyz".toList sceneOneMesh).2 = sceneOneMesh ∧
    (execute defaultConfig noFailures "xyz".toList sceneOneMesh).1.1 = "CANCELLED" :=
  dispatch_prevalidation_failure_preserves_scene _ _ _ _ (Or.inr (Or.inl (by decide)))

/-! ## Scene lookup/update lemmas -/

theorem find_map_ite (l : List Obj) (i j : Nat) (f : Obj → Obj)
    (hf : ∀ o, (f o).id = o.id) :
    (l.map (fun o => if o.id == i then f o else o)).find? (fun o => o.id == j) =
      (l.find? (fun o => o.id == j)).map (fun o => if o.id == i then f o else o) := by
  induction l with
  | nil => rfl
  | cons o rest ih =>
    have hid : (if (o.id == i) = true then f o else o).id = o.id := by
      split
      · exact hf o
      · rfl
    by_cases hj : (o.id == j) = true
    · have l1 : ((o :: rest).map (fun o => if (o.id == i) = true then f o else o)).find?
          (fun o => o.id == j) = some (if (o.id == i) = true then f o else o) := by
        rw [List.map_cons]
        exact List.find?_cons_of_pos _ (by rw [hid]; exact hj)
      have l2 : (o :: rest).find? (fun o => o.id == j) = some o :=
        List.find?_cons_of_pos _ hj
      rw [l1, l2]
      rfl
    · have l1 : ((o :: rest).map (fun o => if (o.id == i) = true then f o else o)).find?
          (fun o => o.id == j) =
          (rest.map (fun o => if (o.id == i) = true then f o else o)).find?
            (fun o => o.id == j) := by
        rw [List.map_cons]
        exact List.find?_cons_of_neg _ (by rw [hid]; exact hj)
      have l2 : (o :: rest).find? (fun o => o.id == j) = rest.find? (fun o => o.id == j) :=
        List.find?_cons_of_neg _ hj
      rw [l1, l2, ih]

theorem getObj_updateObj_self (s : Scene) (i : Nat) (f : Obj → Obj)
    (hf : ∀ o, (f o).id = o.id) :
    getObj (updateObj s i f) i = (getObj s i).map f := by
  unfold getObj updateObj
  rw [find_map_ite _ _ _ _ hf]
  cases h : s.objects.find? (fun o => o.id == i) with
  | none => rfl
  | some o =>
    have ho : (o.id == i) = true := by simpa using List.find?_some h
    show some (if (o.id == i) = true then f o else o) = some (f o)
    rw [if_pos ho]

theorem getObj_updateObj_other (s : Scene) (i j : Nat) (f : Obj → Obj)
    (hf : ∀ o, (f o).id = o.id) (hij : j ≠ i) :
    getObj (updateObj s i f) j = getObj s j := by
  unfold getObj updateObj
  rw [find_map_ite _ _ _ _ hf]
  cases h : s.objects.find? (fun o => o.id == j) with
  | none => rfl
  | some o =>
    have ho : o.id = j := by simpa using List.find?_some h
    have hne : ¬ ((o.id == i) = true) := by
      simp [ho, hij]
    show some (if (o.id == i) = true then f o else o) = some o
    rw [if_neg hne]

/-- An object found by `activeObj` is stored in the scene under its own id. -/
theorem getObj_of_activeObj {s : Scene} {m : Obj} (hact : activeObj s = some m) :
    getObj s m.id = some m := by
  unfold activeObj at hact
  cases ha : s.active with
  | none => rw [ha] at hact; cases hact
  | some i =>
    rw [ha] at hact
    have hact' : getObj s i = some m := hact
    have : m.id = i := by simpa using List.find?_some hact'
    rw [this]
    exact hact'

/-- The dispatcher reaches `_execute_workflow` whenever the command is
recognized and validation succeeds. -/
theorem execute_eq_workflow (cfg : Config) (oracle : ErrOracle) (t : List Char)
    (s : Scene) (hw : parse_command t ≠ .UNKNOWN)
    (hv : (validate_context (parse_command t) (selectedObjs s) (activeObj s) s.mode).1 = true) :
    execute cfg oracle t s = _execute_workflow cfg oracle (parse_command t) s := by
  unfold execute
  rw [if_neg (strip_length_of_parse_ne_unknown hw), if_neg hw,
    if_neg (by rw [hv]; simp)]

/-! ## Hard-surface workflow: C5 -/

/-- C5: dispatching a HARD_SURFACE-classified text with exactly one selected
MESH (which is the active object) in OBJECT mode succeeds and appends exactly
two entries to that mesh's modifier stack, the angle-limited bevel with
`Config.bevelSegments` first and the subdivision with
`Config.subdivisionLevels` second, flags every face smooth, leaves every
other object untouched — and the defaults are 3 segments and 2 levels. -/
theorem hard_surface_dispatch_effect (cfg : Config) (t : List Char) (s : Scene)
    (m : Obj) (hp : parse_command t = .HARD_SURFACE) (hsel : selectedObjs s = [m])
    (hkind : m.kind = .MESH) (hmode : s.mode = "OBJECT")
    (hact : activeObj s = some m) :
    (execute cfg noFailures t s).1.1 = "FINISHED" ∧
    getObj (execute cfg noFailures t s).2 m.id =
      some { m with
        modifiers := m.modifiers ++
          [.bevel "ANGLE" cfg.bevelSegments, .subsurf cfg.subdivisionLevels],
        polysSmooth := m.polysSmooth.map (fun _ => true) } ∧
    (∀ j, j ≠ m.id → getObj (execute cfg noFailures t s).2 j = getObj s j) ∧
    defaultConfig.bevelSegments = 3 ∧ defaultConfig.subdivisionLevels = 2 := by
  have hv : (validate_context (parse_command t) (selectedObjs s) (activeObj s) s.mode).1
      = true := by
    rw [hp, hsel, hmode]
    simp [validate_context, _validate_single_mesh, hkind]
  have hex : execute cfg noFailures t s =
      apply_hard_surface_setup cfg noFailures (activeObj s) s := by
    rw [execute_eq_workflow cfg noFailures t s (by rw [hp]; decide) hv, hp]
    rfl
  have hred : apply_hard_surface_setup cfg noFailures (some m) s =
      (("FINISHED", "Hard-surface setup applied (Bevel + Subdivision + Smooth)"),
        smoothAllPolys
          (addModifier (addModifier s m.id (.bevel "ANGLE" cfg.bevelSegments)) m.id
            (.subsurf cfg.subdivisionLevels)) m.id) := rfl
  rw [hex, hact, hred]
  have hm0 : getObj s m.id = some m := getObj_of_activeObj hact
  refine ⟨rfl, ?_, ?_, rfl, rfl⟩
  · unfold smoothAllPolys addModifier
    rw [getObj_updateObj_self, getObj_updateObj_self, getObj_updateObj_self, hm0]
    · simp [List.append_assoc]
    all_goals exact fun o => rfl
  · intro j hj
    unfold smoothAllPolys addModifier
    rw [getObj_updateObj_other, getObj_updateObj_other, getObj_updateObj_other]
    all_goals first
      | exact fun o => rfl
      | exact hj

/-- Witness for C5: "hard-surface" on a one-mesh selection appends
[bevel(3, ANGLE), subdivision(2)] in that order and smooths all faces. -/
theorem hard_surface_dispatch_effect_witness :
    (execute defaultConfig noFailures "hard-surface".toList sceneOneMesh).1.1 =
      "FINISHED" :=
  (hard_surface_dispatch_effect defaultConfig "hard-surface".toList sceneOneMesh
    sampleMeshA (by decide) (by decide) (by decide) (by decide) (by decide)).1

/-! ## Validation/dispatch divergence on the active object: C10 -/

/-- C10: for the single-mesh intents HARD_SURFACE, SYMMETRIZE and SOLIDIFY,
validation inspects only the selected-objects list and is independent of the
active object, while `_execute_workflow` passes the snapshot's active object
to the executor; hence with exactly one MESH selected in OBJECT mode but a
different (or no) active object, validation succeeds and the workflow is
applied to the active object — not the validated selected mesh (null active
makes the executor itself fail, with the scene unchanged). -/
theorem single_mesh_active_object_divergence :
    (∀ (sel : List Obj) (a a' : Option Obj) (mode : String),
      validate_context .HARD_SURFACE sel a mode = validate_context .HARD_SURFACE sel a' mode ∧
      validate_context .SYMMETRIZE sel a mode = validate_context .SYMMETRIZE sel a' mode ∧
      validate_context .SOLIDIFY sel a mode = validate_context .SOLIDIFY sel a' mode) ∧
    (∀ (cfg : Config) (oracle : ErrOracle) (s : Scene),
      _execute_workflow cfg oracle .HARD_SURFACE s =
        apply_hard_surface_setup cfg oracle (activeObj s) s ∧
      _execute_workflow cfg oracle .SYMMETRIZE s =
        apply_symmetrize oracle (activeObj s) s ∧
      _execute_workflow cfg oracle .SOLIDIFY s =
        apply_solidify cfg oracle (activeObj s) s) ∧
    (∀ (cfg : Config) (t : List Char) (s : Scene) (a b : Obj),
      parse_command t = .SOLIDIFY → selectedObjs s = [a] → a.kind = .MESH →
      s.mode = "OBJECT" → activeObj s = some b → b.id ≠ a.id →
      (validate_context .SOLIDIFY (selectedObjs s) (activeObj s) s.mode = (true, "") ∧
       (execute cfg noFailures t s).1.1 = "FINISHED" ∧
       getObj (execute cfg noFailures t s).2 b.id =
         (getObj s b.id).map (fun o =>
           { o with modifiers := o.modifiers ++ [.solidify cfg.solidifyThickness true] }) ∧
       getObj (execute cfg noFailures t s).2 a.id = getObj s a.id)) ∧
    (∀ (cfg : Config) (t : List Char) (s : Scene) (a : Obj),
      parse_command t = .SOLIDIFY → selectedObjs s = [a] → a.kind = .MESH →
      s.mode = "OBJECT" → activeObj s = none →
      (validate_context .SOLIDIFY (selectedObjs s) (activeObj s) s.mode = (true, "") ∧
       execute cfg noFailures t s =
         (("CANCELLED", "Failed to add Solidify modifier: " ++ noneTypeDetail), s))) := by
  refine ⟨?_, ?_, ?_, ?_⟩
  · intro sel a a' mode
    exact ⟨rfl, rfl, rfl⟩
  · intro cfg oracle s
    exact ⟨rfl, rfl, rfl⟩
  · intro cfg t s a b hp hsel hkind hmode hact hne
    have hvfull : validate_context .SOLIDIFY (selectedObjs s) (activeObj s) s.mode
        = (true, "") := by
      rw [hsel, hmode]
      simp [validate_context, _validate_single_mesh, hkind]
    have hex : execute cfg noFailures t s =
        apply_solidify cfg noFailures (activeObj s) s := by
      rw [execute_eq_workflow cfg noFailures t s (by rw [hp]; decide)
        (by rw [hp, hvfull]), hp]
      rfl
    have hred : apply_solidify cfg noFailures (some b) s =
        (("FINISHED", "Solidify modifier added (thickness: " ++
            pyFormat4 cfg.solidifyThickness ++ "m, even offset enabled)"),
          addModifier s b.id (.solidify cfg.solidifyThickness true)) := rfl
    rw [hex, hact, hred]
    refine ⟨hvfull, rfl, ?_, ?_⟩
    · unfold addModifier
      rw [getObj_updateObj_self]
      exact fun o => rfl
    · unfold addModifier
      rw [getObj_updateObj_other]
      · exact fun o => rfl
      · exact hne.symm
  · intro cfg t s a hp hsel hkind hmode hact
    have hvfull : validate_context .SOLIDIFY (selectedObjs s) (activeObj s) s.mode
        = (true, "") := by
      rw [hsel, hmode]
      simp [validate_context, _validate_single_mesh, hkind]
    have hex : execute cfg noFailures t s =
        apply_solidify cfg noFailures (activeObj s) s := by
      rw [execute_eq_workflow cfg noFailures t s (by rw [hp]; decide)
        (by rw [hp, hvfull]), hp]
      rfl
    rw [hex, hact]
    exact ⟨hvfull, rfl⟩

/-- Witness for C10: dispatching "solidify" with mesh 1 selected but mesh 2
active succeeds, and the modifier lands on mesh 2. -/
theorem single_mesh_active_object_divergence_witness :
    (execute defaultConfig noFailures "solidify".toList sceneActiveMismatch).1.1 =
      "FINISHED" :=
  (single_mesh_active_object_divergence.2.2.1 defaultConfig "solidify".toList
    sceneActiveMismatch sampleMeshA sampleMeshB (by decide) (by decide) (by decide)
    (by decide) (by decide) (by decide)).2.1

/-! ## Executor success messages vs. the Feedback Catalog: C6 -/

/-- C6 counterexample: with the default config, the smart-array single
message carries an " (offset 1.0)" suffix absent from SUCCESS_ARRAY_SINGLE,
and the solidify message renders the thickness as "0.0100m" where
SUCCESS_SOLIDIFY says "0.01m" — neither terminal message equals its Feedback
Catalog template. -/
theorem executor_messages_ne_catalog :
    (apply_smart_array_single defaultConfig noFailures (some sampleMeshA)
        sceneOneMesh).1 =
      ("FINISHED", "Array modifier added with 5 copies on X-axis (offset 1.0)") ∧
    "Array modifier added with 5 copies on X-axis (offset 1.0)" ≠
      SUCCESS_ARRAY_SINGLE ∧
    (apply_solidify defaultConfig noFailures (some sampleMeshA) sceneOneMesh).1 =
      ("FINISHED", "Solidify modifier added (thickness: 0.0100m, even offset enabled)") ∧
    "Solidify modifier added (thickness: 0.0100m, even offset enabled)" ≠
      SUCCESS_SOLIDIFY := by decide

/-- C6 amended: each successful executor's terminal message names the
intent's key parameter values verbatim, but only SHRINKWRAP's equals its
catalog template (`SUCCESS_SHRINKWRAP` with the target's name substituted).
The SMART_ARRAY single message extends SUCCESS_ARRAY_SINGLE with an
" (offset {x})" suffix naming the configured offset, and the SOLIDIFY message
formats the configured thickness with four decimal places, so at the default
thickness it reads "0.0100m" where SUCCESS_SOLIDIFY reads "0.01m". -/
theorem executor_success_message_shapes (cfg : Config) (oracle : ErrOracle)
    (o src tgt : Obj) (s₁ s₂ s₃ : Scene) (h0 : oracle 0 = none) :
    (apply_smart_array_single cfg oracle (some o) s₁).1 =
      ("FINISHED", "Array modifier added with " ++ toString cfg.arrayCount ++
        " copies on X-axis (offset " ++ pyFloatStr cfg.arrayOffsetX ++ ")") ∧
    (apply_solidify cfg oracle (some o) s₂).1 =
      ("FINISHED", "Solidify modifier added (thickness: " ++
        pyFormat4 cfg.solidifyThickness ++ "m, even offset enabled)") ∧
    (apply_shrinkwrap oracle src tgt s₃).1 =
      ("FINISHED", SUCCESS_SHRINKWRAP_fmt tgt.name) ∧
    ("Array modifier added with " ++ toString defaultConfig.arrayCount ++
        " copies on X-axis (offset " ++ pyFloatStr defaultConfig.arrayOffsetX ++ ")" =
      SUCCESS_ARRAY_SINGLE ++ " (offset 1.0)") ∧
    ("Solidify modifier added (thickness: " ++
        pyFormat4 defaultConfig.solidifyThickness ++ "m, even offset enabled)" =
      "Solidify modifier added (thickness: 0.0100m, even offset enabled)") := by
  unfold apply_smart_array_single apply_solidify apply_shrinkwrap
  rw [h0]
  exact ⟨rfl, rfl, rfl, by decide, by decide⟩

/-- Witness for C6's amended theorem at a concrete target: the shrinkwrap
message equals the formatted catalog template. -/
theorem executor_success_message_shapes_witness :
    (apply_shrinkwrap noFailures sampleMeshA sampleMeshB sceneTwoMeshes).1 =
      ("FINISHED", SUCCESS_SHRINKWRAP_fmt sampleMeshB.name) :=
  (executor_success_message_shapes defaultConfig noFailures sampleMeshA sampleMeshA
    sampleMeshB sceneOneMesh sceneOneMesh sceneTwoMeshes rfl).2.2.1

/-! ## Symmetrize mode restoration: C8 -/

theorem symmetrizeFail_mode (oracle : ErrOracle) (e : String) (s : Scene)
    (h : oracle 6 = none) : (symmetrizeFail oracle e s).2.mode = "OBJECT" := by
  unfold symmetrizeFail
  by_cases hm : s.mode = "OBJECT"
  · rw [if_neg (by simp [hm])]
    exact hm
  · rw [if_pos hm, h]

/-- C8: if the symmetrize executor fails anywhere (in particular after
entering the element-edit state), its handler forces a best-effort return to
OBJECT mode before reporting FAILURE; whenever that restoring `mode_set`
itself succeeds, a CANCELLED result never leaves the host in the edit mode. -/
theorem symmetrize_failure_restores_object_mode (oracle : ErrOracle)
    (obj : Option Obj) (s : Scene) (hrestore : oracle 6 = none)
    (hfail : (apply_symmetrize oracle obj s).1.1 = "CANCELLED") :
    (apply_symmetrize oracle obj s).2.mode = "OBJECT" := by
  simp only [apply_symmetrize]
  cases h0 : (if s.mode ≠ "OBJECT" then oracle 0 else none) with
  | some e => exact symmetrizeFail_mode _ _ _ hrestore
  | none =>
    cases h1 : oracle 1 with
    | some e => exact symmetrizeFail_mode _ _ _ hrestore
    | none =>
      cases obj with
      | none => exact symmetrizeFail_mode _ _ _ hrestore
      | some o =>
        cases h2 : oracle 2 with
        | some e => exact symmetrizeFail_mode _ _ _ hrestore
        | none =>
          cases h3 : oracle 3 with
          | some e => exact symmetrizeFail_mode _ _ _ hrestore
          | none =>
            cases h4 : oracle 4 with
            | some e => exact symmetrizeFail_mode _ _ _ hrestore
            | none =>
              cases h5 : oracle 5 with
              | some e => exact symmetrizeFail_mode _ _ _ hrestore
              | none => rfl

/-- Witness for C8: a failure injected at the mirror-modifier step reports
CANCELLED with the scene back in OBJECT mode. -/
theorem symmetrize_failure_restores_object_mode_witness :
    (apply_symmetrize oracleFailMirror (some sampleMeshA) sceneOneMesh).2.mode =
      "OBJECT" :=
  symmetrize_failure_restores_object_mode oracleFailMirror (some sampleMeshA)
    sceneOneMesh (by decide) (by decide)

/-! ## Status totality: C7 -/

/-- An oracle failing the first executor primitive. -/
def oracleFailFirst : ErrOracle := fun k => if k = 0 then some "boom" else none

theorem status_smart_array_single (cfg : Config) (oracle : ErrOracle)
    (obj : Option Obj) (s : Scene) :
    (apply_smart_array_single cfg oracle obj s).1.1 = "FINISHED" ∨
    (apply_smart_array_single cfg oracle obj s).1.1 = "CANCELLED" := by
  unfold apply_smart_array_single
  cases obj with
  | none => exact Or.inr rfl
  | some o =>
    cases h0 : oracle 0 with
    | some e => exact Or.inr rfl
    | none => exact Or.inl rfl

theorem status_smart_array_controlled (oracle : ErrOracle) (m e : Obj) (s : Scene) :
    (apply_smart_array_controlled oracle m e s).1.1 = "FINISHED" ∨
    (apply_smart_array_controlled oracle m e s).1.1 = "CANCELLED" := by
  unfold apply_smart_array_controlled
  cases h0 : oracle 0 with
  | some x => exact Or.inr rfl
  | none => exact Or.inl rfl

theorem status_hard_surface (cfg : Config) (oracle : ErrOracle) (obj : Option Obj)
    (s : Scene) :
    (apply_hard_surface_setup cfg oracle obj s).1.1 = "FINISHED" ∨
    (apply_hard_surface_setup cfg oracle obj s).1.1 = "CANCELLED" := by
  simp only [apply_hard_surface_setup]
  cases obj with
  | none => exact Or.inr rfl
  | some o =>
    cases h0 : oracle 0 with
    | some e => exact Or.inr rfl
    | none =>
      cases h1 : oracle 1 with
      | some e => exact Or.inr rfl
      | none => exact Or.inl rfl

theorem status_symmetrizeFail (oracle : ErrOracle) (e : String) (s : Scene) :
    (symmetrizeFail oracle e s).1.1 = "CANCELLED" := by
  unfold symmetrizeFail
  rfl

theorem status_symmetrize (oracle : ErrOracle) (obj : Option Obj) (s : Scene) :
    (apply_symmetrize oracle obj s).1.1 = "FINISHED" ∨
    (apply_symmetrize oracle obj s).1.1 = "CANCELLED" := by
  simp only [apply_symmetrize]
  cases h0 : (if s.mode ≠ "OBJECT" then oracle 0 else none) with
  | some e => exact Or.inr (status_symmetrizeFail _ _ _)
  | none =>
    cases h1 : oracle 1 with
    | some e => exact Or.inr (status_symmetrizeFail _ _ _)
    | none =>
      cases obj with
      | none => exact Or.inr (status_symmetrizeFail _ _ _)
      | some o =>
        cases h2 : oracle 2 with
        | some e => exact Or.inr (status_symmetrizeFail _ _ _)
        | none =>
          cases h3 : oracle 3 with
          | some e => exact Or.inr (status_symmetrizeFail _ _ _)
          | none =>
            cases h4 : oracle 4 with
            | some e => exact Or.inr (status_symmetrizeFail _ _ _)
            | none =>
              cases h5 : oracle 5 with
              | some e => exact Or.inr (status_symmetrizeFail _ _ _)
              | none => exact Or.inl rfl

theorem status_curve_deform (oracle : ErrOracle) (m c : Obj) (s : Scene) :
    (apply_curve_deform oracle m c s).1.1 = "FINISHED" ∨
    (apply_curve_deform oracle m c s).1.1 = "CANCELLED" := by
  simp only [apply_curve_deform]
  cases h0 : oracle 0 with
  | some e => exact Or.inr rfl
  | none =>
    cases h1 : oracle 1 with
    | some e => exact Or.inr rfl
    | none =>
      cases h2 : oracle 2 with
      | some e => exact Or.inr rfl
      | none => exact Or.inl rfl

theorem status_solidify (cfg : Config) (oracle : ErrOracle) (obj : Option Obj)
    (s : Scene) :
    (apply_solidify cfg oracle obj s).1.1 = "FINISHED" ∨
    (apply_solidify cfg oracle obj s).1.1 = "CANCELLED" := by
  unfold apply_solidify
  cases obj with
  | none => exact Or.inr rfl
  | some o =>
    cases h0 : oracle 0 with
    | some e => exact Or.inr rfl
    | none => exact Or.inl rfl

theorem status_shrinkwrap (oracle : ErrOracle) (src tgt : Obj) (s : Scene) :
    (apply_shrinkwrap oracle src tgt s).1.1 = "FINISHED" ∨
    (apply_shrinkwrap oracle src tgt s).1.1 = "CANCELLED" := by
  unfold apply_shrinkwrap
  cases h0 : oracle 0 with
  | some e => exact Or.inr rfl
  | none => exact Or.inl rfl

theorem status_execute_workflow (cfg : Config) (oracle : ErrOracle)
    (w : WorkflowType) (s : Scene) :
    (_execute_workflow cfg oracle w s).1.1 = "FINISHED" ∨
    (_execute_workflow cfg oracle w s).1.1 = "CANCELLED" := by
  cases w
  case SMART_ARRAY =>
    simp only [_execute_workflow, _execute_smart_array]
    by_cases h : (selectedObjs s).length = 1
    · rw [if_pos h]
      exact status_smart_array_single _ _ _ _
    · rw [if_neg h]
      split
      · split
        · exact status_smart_array_controlled _ _ _ _
        · exact Or.inr rfl
      · exact Or.inr rfl
  case HARD_SURFACE =>
    exact status_hard_surface _ _ _ _
  case SYMMETRIZE =>
    exact status_symmetrize _ _ _
  case CURVE_DEFORM =>
    simp only [_execute_workflow, _execute_curve_deform]
    split
    · split
      · exact status_curve_deform _ _ _ _
      · exact Or.inr rfl
    · exact Or.inr rfl
  case SOLIDIFY =>
    exact status_solidify _ _ _ _
  case SHRINKWRAP =>
    simp only [_execute_workflow, _execute_shrinkwrap]
    split
    · split
      · exact status_shrinkwrap _ _ _ _
      · exact Or.inr rfl
    · exact Or.inr rfl
  case UNKNOWN =>
    exact Or.inr rfl

/-- C7: the dispatcher is total — for every text, snapshot, config and host
failure behavior it returns a (status, message) pair whose status is exactly
"FINISHED" or "CANCELLED" (exceptions never escape past its boundary: the
executors' try/except converts every injected primitive failure), and an
executor failure is converted at the executor boundary into CANCELLED with a
"Failed to ...: {detail}" message, shown for the smart-array and solidify
executors. -/
theorem dispatch_status_and_executor_failure_messages :
    (∀ (cfg : Config) (oracle : ErrOracle) (t : List Char) (s : Scene),
      (execute cfg oracle t s).1.1 = "FINISHED" ∨
      (execute cfg oracle t s).1.1 = "CANCELLED") ∧
    (∀ (cfg : Config) (oracle : ErrOracle) (o : Obj) (s : Scene) (e : String),
      oracle 0 = some e →
      apply_smart_array_single cfg oracle (some o) s =
        (("CANCELLED", "Failed to add Array modifier: " ++ e), s)) ∧
    (∀ (cfg : Config) (oracle : ErrOracle) (obj : Option Obj) (s : Scene),
      (apply_solidify cfg oracle obj s).1.1 = "CANCELLED" →
      ∃ d, (apply_solidify cfg oracle obj s).1.2 =
        "Failed to add Solidify modifier: " ++ d) := by
  refine ⟨?_, ?_, ?_⟩
  · intro cfg oracle t s
    unfold execute
    by_cases h1 : (pyStrip t).length < 3
    · rw [if_pos h1]
      exact Or.inr rfl
    · rw [if_neg h1]
      by_cases h2 : parse_command t = .UNKNOWN
      · rw [if_pos h2]
        exact Or.inr rfl
      · rw [if_neg h2]
        by_cases h3 : (validate_context (parse_command t) (selectedObjs s)
            (activeObj s) s.mode).1 = false
        · rw [if_pos h3]
          exact Or.inr rfl
        · rw [if_neg h3]
          exact status_execute_workflow _ _ _ _
  · intro cfg oracle o s e h
    unfold apply_smart_array_single
    rw [h]
  · intro cfg oracle obj s hfail
    unfold apply_solidify at hfail ⊢
    cases obj with
    | none => exact ⟨noneTypeDetail, rfl⟩
    | some o =>
      cases h0 : oracle 0 with
      | some e => exact ⟨e, rfl⟩
      | none =>
        rw [h0] at hfail
        have hcontra : ("FINISHED" : String) = "CANCELLED" := hfail
        exact absurd hcontra (by decide)

/-- Witness for C7: a concrete dispatch has a two-valued status, and an
injected failure of the array primitive yields the exact Failed-to message. -/
theorem dispatch_status_and_executor_failure_messages_witness :
    ((execute defaultConfig noFailures "solidify".toList sceneOneMesh).1.1 =
        "FINISHED" ∨
     (execute defaultConfig noFailures "solidify".toList sceneOneMesh).1.1 =
        "CANCELLED") ∧
    apply_smart_array_single defaultConfig oracleFailFirst (some sampleMeshA)
        sceneOneMesh =
      (("CANCELLED", "Failed to add Array modifier: boom"), sceneOneMesh) :=
  ⟨dispatch_status_and_executor_failure_messages.1 defaultConfig noFailures
      "solidify".toList sceneOneMesh,
   dispatch_status_and_executor_failure_messages.2.1 defaultConfig oracleFailFirst
      sampleMeshA sceneOneMesh "boom" (by decide)⟩

end BlenderCopilot
